import Mathlib

/-!
Shallow embedding of the document-verification pipeline of `src/app/page.tsx`
(the `runAnalysis` orchestration: extraction collection, the empty-run guard,
policy-parse fallback, best-document selection, and the four applicant
cross-checks).  The library modules imported by `page.tsx`
(`lib/extraction`, `lib/policy`, `lib/report`, `lib/utils`, `lib/mrz`) are not
part of the repository snapshot; their values enter `runAnalysis` only as
opaque data, so they are abstracted here as parameters (the OCR-plus-extraction
step, the name-similarity function, the policy parser, the eligibility
evaluator and the report builder), exactly as `page.tsx` consumes them.
Numbers are rationals; JavaScript string operations used by the code
(`trim`, `replace(/\s+/g, "")`, `replace(/[^A-Z]/gi, "")`, `toUpperCase`,
`Math.round`, `toFixed(1)`) are embedded for the ASCII inputs the pipeline
deals with.
-/

namespace AtlasVerify

/-- JavaScript whitespace class (the characters matched by `\s` and trimmed by
`String.prototype.trim`), restricted to the code points the pipeline's ASCII
data can contain plus NBSP. -/
def jsWhitespace (c : Char) : Bool :=
  c = ' ' || c = '\t' || c = '\n' || c = '\x0d' || c = '\x0b' || c = '\x0c' || c = '\xa0'

/-- Embedding of `String.prototype.trim`: drop whitespace from both ends. -/
def jsTrim (s : String) : String :=
  String.mk (((s.data.dropWhile jsWhitespace).reverse.dropWhile jsWhitespace).reverse)

/-- Embedding of `s.replace(/\s+/g, "")`: remove every whitespace character. -/
def stripWhitespace (s : String) : String :=
  String.mk (s.data.filter (fun c => !jsWhitespace c))

/-- Embedding of `s.replace(/[^A-Z]/gi, "")`: keep only ASCII letters. -/
def stripNonLetters (s : String) : String :=
  String.mk (s.data.filter Char.isAlpha)

/-- Embedding of `String.prototype.toUpperCase` on ASCII data. -/
def jsToUpper (s : String) : String :=
  String.mk (s.data.map Char.toUpper)

/-- Embedding of `Math.round`: round half toward positive infinity. -/
def jsRound (q : ℚ) : ℤ :=
  ⌊q + 1/2⌋

/-- Embedding of `Number.prototype.toFixed(1)` on the nonnegative in-range
values the pipeline produces. -/
def toFixed1 (q : ℚ) : String :=
  let n : ℤ := ⌊q * 10 + 1/2⌋
  toString (n / 10) ++ "." ++ toString (n % 10)

/-- A `(value, confidence)` pair as produced by the field extractor
(`FieldValue` in the data model). -/
structure FieldValue where
  value : String
  confidence : ℚ
deriving DecidableEq

/-- The named fields of a `DocumentExtraction` that `runAnalysis` reads
(`bestDoc.fields.*` in `page.tsx`); absent fields are `none`. -/
structure ExtractionFields where
  surname : Option FieldValue := none
  givenNames : Option FieldValue := none
  documentNumber : Option FieldValue := none
  nationality : Option FieldValue := none
  birthDate : Option FieldValue := none
  sex : Option FieldValue := none
  expiryDate : Option FieldValue := none
  documentType : Option FieldValue := none
deriving DecidableEq

/-- One per-document extraction record with its aggregate confidence
(`DocumentExtraction`). -/
structure DocumentExtraction where
  sourceId : String := ""
  fields : ExtractionFields := {}
  confidence : ℚ
deriving DecidableEq

/-- The applicant-declared profile built at the start of a run
(`ApplicantProfile` plus the `fullName` derivation of `page.tsx`). -/
structure ApplicantProfile where
  surname : String
  givenNames : String
  fullName : String
  dateOfBirth : String
  nationality : String
  passportNumber : String
  visaType : String
deriving DecidableEq

/-- The raw form state the profile is constructed from (`applicantForm`). -/
structure ApplicantForm where
  surname : String := ""
  givenNames : String := ""
  dateOfBirth : String := ""
  nationality : String := ""
  passportNumber : String := ""
  visaType : String := "tourist"
deriving DecidableEq

/-- `page.tsx` lines 183-191: the profile for one run; `fullName` is the
trimmed concatenation of given names and surname. -/
def mkApplicant (f : ApplicantForm) : ApplicantProfile :=
  { surname := f.surname
    givenNames := f.givenNames
    fullName := jsTrim (f.givenNames ++ " " ++ f.surname)
    dateOfBirth := f.dateOfBirth
    nationality := f.nationality
    passportNumber := f.passportNumber
    visaType := f.visaType }

/-- The field tag of a cross-check record. -/
inductive CheckField
  | fullName
  | dateOfBirth
  | passportNumber
  | nationality
deriving DecidableEq

/-- The status of a cross-check record. -/
inductive CheckStatus
  | pass
  | warning
  | fail
deriving DecidableEq

/-- One cross-check outcome (`ApplicantCheck`). -/
structure ApplicantCheck where
  field : CheckField
  status : CheckStatus
  detail : String
  confidence : ℚ
deriving DecidableEq

/-- The value of an optional field, `""` when absent: JavaScript's
`f?.value` is truthy exactly when this is nonempty. -/
def optValue (f : Option FieldValue) : String :=
  (f.map FieldValue.value).getD ""

/-- The confidence of an optional field with a fallback: `f?.confidence ?? d`. -/
def optConfidence (f : Option FieldValue) (d : ℚ) : ℚ :=
  (f.map FieldValue.confidence).getD d

/-- `page.tsx` lines 204-206: the document-derived name, the trimmed
concatenation of the best document's given names and surname. -/
def docNameOf (d : DocumentExtraction) : String :=
  jsTrim (optValue d.fields.givenNames ++ " " ++ optValue d.fields.surname)

/-- `page.tsx` lines 212-222: the full-name cross-check record built from a
similarity score. -/
def mkFullNameCheck (similarity : ℚ) : ApplicantCheck :=
  { field := CheckField.fullName
    status :=
      if similarity > 3/4 then CheckStatus.pass
      else if similarity > 2/5 then CheckStatus.warning
      else CheckStatus.fail
    detail := "Document vs applicant name similarity " ++ toFixed1 (similarity * 100) ++ "%."
    confidence := (jsRound (similarity * 100) : ℚ) }

/-- `page.tsx` lines 207-223: emit the full-name check when the
document-derived name is truthy (nonempty). -/
def nameChecks (sim : String → String → ℚ) (a : ApplicantProfile)
    (d : DocumentExtraction) : List ApplicantCheck :=
  if docNameOf d ≠ "" then [mkFullNameCheck (sim (docNameOf d) a.fullName)] else []

/-- `page.tsx` lines 228-235: the date-of-birth cross-check record. -/
def mkDobCheck (docDob applicantDob : String) (conf : ℚ) : ApplicantCheck :=
  { field := CheckField.dateOfBirth
    status := if docDob = applicantDob then CheckStatus.pass else CheckStatus.warning
    detail :=
      if docDob = applicantDob then "Date of birth matches applicant input."
      else "DOB mismatch: document " ++ docDob ++ ", applicant " ++ applicantDob ++ "."
    confidence := conf }

/-- `page.tsx` lines 225-236: emit the date-of-birth check when both the
document birth date and the declared date of birth are truthy. -/
def dobChecks (a : ApplicantProfile) (d : DocumentExtraction) : List ApplicantCheck :=
  if optValue d.fields.birthDate ≠ "" ∧ a.dateOfBirth ≠ "" then
    [mkDobCheck (optValue d.fields.birthDate) a.dateOfBirth
      (optConfidence d.fields.birthDate 60)]
  else []

/-- `page.tsx` lines 240-243: passport-number normalization — strip all
whitespace, then upper-case. -/
def normalizePassport (s : String) : String :=
  jsToUpper (stripWhitespace s)

/-- `page.tsx` lines 245-252: the passport-number cross-check record,
built from the already-normalized values. -/
def mkPassportCheck (normalizedDoc normalizedApplicant : String) (conf : ℚ) : ApplicantCheck :=
  { field := CheckField.passportNumber
    status := if normalizedDoc = normalizedApplicant then CheckStatus.pass else CheckStatus.warning
    detail :=
      if normalizedDoc = normalizedApplicant then "Passport number aligns."
      else "Passport mismatch: document " ++ normalizedDoc ++ ", applicant " ++ normalizedApplicant ++ "."
    confidence := conf }

/-- `page.tsx` lines 238-253: emit the passport check when both the document
number and the declared passport number are truthy. -/
def passportChecks (a : ApplicantProfile) (d : DocumentExtraction) : List ApplicantCheck :=
  if optValue d.fields.documentNumber ≠ "" ∧ a.passportNumber ≠ "" then
    [mkPassportCheck (normalizePassport (optValue d.fields.documentNumber))
      (normalizePassport a.passportNumber)
      (optConfidence d.fields.documentNumber 60)]
  else []

/-- `page.tsx` lines 256-261: nationality normalization — drop non-letters,
then upper-case. -/
def normalizeNationality (s : String) : String :=
  jsToUpper (stripNonLetters s)

/-- `page.tsx` lines 263-270: the nationality cross-check record, built from
the already-normalized values. -/
def mkNationalityCheck (docNat applicantNat : String) (conf : ℚ) : ApplicantCheck :=
  { field := CheckField.nationality
    status := if docNat = applicantNat then CheckStatus.pass else CheckStatus.warning
    detail :=
      if docNat = applicantNat then "Nationality consistent."
      else "Nationality difference: document " ++ docNat ++ ", applicant " ++ applicantNat ++ "."
    confidence := conf }

/-- `page.tsx` lines 255-271: emit the nationality check when both the
document nationality value and the declared nationality are truthy. -/
def nationalityChecks (a : ApplicantProfile) (d : DocumentExtraction) : List ApplicantCheck :=
  if optValue d.fields.nationality ≠ "" ∧ a.nationality ≠ "" then
    [mkNationalityCheck (normalizeNationality (optValue d.fields.nationality))
      (normalizeNationality a.nationality)
      (optConfidence d.fields.nationality 60)]
  else []

/-- `page.tsx` lines 199-271: the cross-check list, pushed in source order —
full name, date of birth, passport number, nationality. -/
def buildCrossChecks (sim : String → String → ℚ) (a : ApplicantProfile)
    (d : DocumentExtraction) : List ApplicantCheck :=
  nameChecks sim a d ++ dobChecks a d ++ passportChecks a d ++ nationalityChecks a d

/-- A per-document lifecycle state (`UploadedDocument.status`). -/
inductive DocStatus
  | pending
  | processing
  | done
  | error
deriving DecidableEq

/-- The slice of an `UploadedDocument` that `runAnalysis` reads. -/
structure UploadedDocument where
  id : String
  status : DocStatus := DocStatus.pending
  extraction : Option DocumentExtraction := none
deriving DecidableEq

/-- `page.tsx` lines 112-161: the run's extraction collection.  It starts
from the extractions of documents already in the `done` state, then the loop
over all the documents appends one extraction per successful OCR attempt
(`ocr doc = none` models a recognizer exception, which marks the document
`error` and contributes nothing). -/
def collectedExtractions (ocr : UploadedDocument → Option DocumentExtraction)
    (docs : List UploadedDocument) : List DocumentExtraction :=
  (docs.filter (fun d => d.status == DocStatus.done && d.extraction.isSome)).filterMap
      UploadedDocument.extraction
    ++ docs.filterMap ocr

/-- `page.tsx` lines 201-203: the reducer of the best-document selection —
keep the accumulator unless the current extraction's confidence is strictly
higher. -/
def pickBetter (acc current : DocumentExtraction) : DocumentExtraction :=
  if current.confidence > acc.confidence then current else acc

/-- JavaScript's unseeded `Array.prototype.reduce` over `pickBetter`:
`none` models the `TypeError` thrown on an empty array. -/
def reduceBest : List DocumentExtraction → Option DocumentExtraction
  | [] => none
  | d :: rest => some (rest.foldl pickBetter d)

/-- A toast notification (`ToastMessage`). -/
structure ToastMessage where
  title : String
  description : String
deriving DecidableEq

/-- `page.tsx` lines 100-103. -/
def noDocumentsToast : ToastMessage :=
  { title := "No Documents"
    description := "Add at least one document image before analysis." }

/-- `page.tsx` lines 164-167. -/
def analysisIncompleteToast : ToastMessage :=
  { title := "Analysis Incomplete"
    description := "OCR failed for all documents. Check image quality." }

/-- `page.tsx` lines 176-179. -/
def policyErrorToast : ToastMessage :=
  { title := "Policy Error"
    description := "Invalid policy JSON. Reverting to default policy." }

/-- `page.tsx` lines 280-283. -/
def analysisCompleteToast : ToastMessage :=
  { title := "Analysis Complete"
    description := "Structured verification report generated." }

/-- `page.tsx` lines 172-181: resolve the policy for the run from the result
of parsing the policy text.  A parse failure is caught: the built-in default
policy is substituted and a `Policy Error` toast is raised, so the
substitution is signaled rather than silent. -/
def resolvePolicy {Policy : Type} (builtinDefault : Policy) :
    Except String Policy → Policy × List ToastMessage
  | Except.ok p => (p, [])
  | Except.error _ => (builtinDefault, [policyErrorToast])

/-- The outcome of one `runAnalysis` invocation: the final value of the
`report` state and the toasts raised during the run, in order. -/
structure RunResult (Report : Type) where
  report : Option Report
  toasts : List ToastMessage
deriving DecidableEq

/-- `page.tsx` lines 163-283: the part of the run after the extraction
collection is known.  An empty collection aborts the run with no report;
otherwise the policy is resolved, eligibility is evaluated, the best document
is reduced, the cross-checks are built and the report is produced. -/
def runAnalysisCore {Policy Elig Report : Type} (builtinDefault : Policy)
    (parsePolicyFn : String → Except String Policy)
    (evaluateEligibilityFn : ApplicantProfile → List DocumentExtraction → Policy → Elig)
    (buildReportFn : List DocumentExtraction → Elig → ApplicantProfile →
      List ApplicantCheck → Report)
    (sim : String → String → ℚ) (policyText : String) (form : ApplicantForm) :
    List DocumentExtraction → RunResult Report
  | [] => { report := none, toasts := [analysisIncompleteToast] }
  | d :: rest =>
    let resolved := resolvePolicy builtinDefault (parsePolicyFn policyText)
    let applicant := mkApplicant form
    let eligibility := evaluateEligibilityFn applicant (d :: rest) resolved.1
    let bestDoc := rest.foldl pickBetter d
    let crossChecks := buildCrossChecks sim applicant bestDoc
    { report := some (buildReportFn (d :: rest) eligibility applicant crossChecks)
      toasts := resolved.2 ++ [analysisCompleteToast] }

/-- `page.tsx` lines 98-288: one invocation of `runAnalysis`.  With no queued
documents the run returns before clearing the report; otherwise the report is
cleared, the extractions are collected and the core pipeline runs. -/
def runAnalysis {Policy Elig Report : Type} (builtinDefault : Policy)
    (parsePolicyFn : String → Except String Policy)
    (evaluateEligibilityFn : ApplicantProfile → List DocumentExtraction → Policy → Elig)
    (buildReportFn : List DocumentExtraction → Elig → ApplicantProfile →
      List ApplicantCheck → Report)
    (sim : String → String → ℚ)
    (ocr : UploadedDocument → Option DocumentExtraction)
    (prevReport : Option Report) (docs : List UploadedDocument)
    (policyText : String) (form : ApplicantForm) : RunResult Report :=
  if docs.length = 0 then { report := prevReport, toasts := [noDocumentsToast] }
  else
    runAnalysisCore builtinDefault parsePolicyFn evaluateEligibilityFn buildReportFn
      sim policyText form (collectedExtractions ocr docs)

/-! Helper lemmas about the individual cross-check sublists. -/

theorem nameChecks_field {sim a d c} (h : c ∈ nameChecks sim a d) :
    c.field = CheckField.fullName := by
  unfold nameChecks at h
  split at h <;> simp_all [mkFullNameCheck]

theorem dobChecks_field {a d c} (h : c ∈ dobChecks a d) :
    c.field = CheckField.dateOfBirth := by
  unfold dobChecks at h
  split at h <;> simp_all [mkDobCheck]

theorem passportChecks_field {a d c} (h : c ∈ passportChecks a d) :
    c.field = CheckField.passportNumber := by
  unfold passportChecks at h
  split at h <;> simp_all [mkPassportCheck]

theorem nationalityChecks_field {a d c} (h : c ∈ nationalityChecks a d) :
    c.field = CheckField.nationality := by
  unfold nationalityChecks at h
  split at h <;> simp_all [mkNationalityCheck]

/-- C1 --- For every analysis run in which the best document's extraction has a
birthDate value and the applicant declared a date of birth, the dateOfBirth
cross-check compares the two (canonical-form) values by exact string equality,
and its status is `pass` when they are equal and `warning` otherwise, never
`fail`. -/
theorem dob_check_exact_equality_never_fail (sim : String → String → ℚ)
    (a : ApplicantProfile) (d : DocumentExtraction)
    (h1 : optValue d.fields.birthDate ≠ "") (h2 : a.dateOfBirth ≠ "") :
    ∃ c ∈ buildCrossChecks sim a d, c.field = CheckField.dateOfBirth ∧
      (c.status = CheckStatus.pass ↔ optValue d.fields.birthDate = a.dateOfBirth) ∧
      (c.status = CheckStatus.warning ↔ optValue d.fields.birthDate ≠ a.dateOfBirth) ∧
      c.status ≠ CheckStatus.fail := by
  have hd : dobChecks a d =
      [mkDobCheck (optValue d.fields.birthDate) a.dateOfBirth
        (optConfidence d.fields.birthDate 60)] := by
    simp [dobChecks, h1, h2]
  refine ⟨mkDobCheck (optValue d.fields.birthDate) a.dateOfBirth
    (optConfidence d.fields.birthDate 60), ?_, ?_⟩
  · simp [buildCrossChecks, hd]
  · by_cases heq : optValue d.fields.birthDate = a.dateOfBirth <;>
      simp [mkDobCheck, heq]

/-- C1 witness: a concrete run with both dates declared. -/
def dobWitnessDoc : DocumentExtraction :=
  { fields := { birthDate := some ⟨"1990-01-05", 88⟩ }, confidence := 85 }

/-- C1 witness form. -/
def dobWitnessForm : ApplicantForm :=
  { dateOfBirth := "1990-01-05" }

/-- C1 witness. -/
theorem dob_check_exact_equality_never_fail_witness :
    ∃ c ∈ buildCrossChecks (fun _ _ => 1) (mkApplicant dobWitnessForm) dobWitnessDoc,
      c.field = CheckField.dateOfBirth ∧
      (c.status = CheckStatus.pass ↔
        optValue dobWitnessDoc.fields.birthDate = (mkApplicant dobWitnessForm).dateOfBirth) ∧
      (c.status = CheckStatus.warning ↔
        optValue dobWitnessDoc.fields.birthDate ≠ (mkApplicant dobWitnessForm).dateOfBirth) ∧
      c.status ≠ CheckStatus.fail :=
  dob_check_exact_equality_never_fail (fun _ _ => 1) (mkApplicant dobWitnessForm)
    dobWitnessDoc (by decide) (by decide)

/-- C3 counterexample data: the applicant declares no name at all. -/
def emptyNameForm : ApplicantForm := {}

/-- C3 counterexample data: the best document carries only a given name. -/
def nameOnlyDoc : DocumentExtraction :=
  { fields := { givenNames := some ⟨"JANE", 90⟩ }, confidence := 80 }

/-- C3 counterexample: with an empty declared name (so the applicant side has
no value) and a document-derived name present, a fullName check is still
emitted, contradicting the only-when-both-sides-have-a-value contract. -/
theorem fullName_check_emitted_without_applicant_name :
    (mkApplicant emptyNameForm).fullName = "" ∧
    ∃ c ∈ buildCrossChecks (fun _ _ => 0) (mkApplicant emptyNameForm) nameOnlyDoc,
      c.field = CheckField.fullName := by decide

/-- C3 (amended) --- dateOfBirth, passportNumber and nationality checks are
emitted exactly when both the document-derived and the applicant-declared
values are non-empty, but the fullName check is emitted exactly when the
document-derived name is non-empty, irrespective of the applicant's declared
name. -/
theorem check_emission_conditions (sim : String → String → ℚ)
    (a : ApplicantProfile) (d : DocumentExtraction) :
    ((∃ c ∈ buildCrossChecks sim a d, c.field = CheckField.fullName) ↔
      docNameOf d ≠ "") ∧
    ((∃ c ∈ buildCrossChecks sim a d, c.field = CheckField.dateOfBirth) ↔
      (optValue d.fields.birthDate ≠ "" ∧ a.dateOfBirth ≠ "")) ∧
    ((∃ c ∈ buildCrossChecks sim a d, c.field = CheckField.passportNumber) ↔
      (optValue d.fields.documentNumber ≠ "" ∧ a.passportNumber ≠ "")) ∧
    ((∃ c ∈ buildCrossChecks sim a d, c.field = CheckField.nationality) ↔
      (optValue d.fields.nationality ≠ "" ∧ a.nationality ≠ "")) := by
  refine ⟨⟨fun ⟨c, hc, hf⟩ => ?_, fun h => ?_⟩, ⟨fun ⟨c, hc, hf⟩ => ?_, fun h => ?_⟩,
    ⟨fun ⟨c, hc, hf⟩ => ?_, fun h => ?_⟩, ⟨fun ⟨c, hc, hf⟩ => ?_, fun h => ?_⟩⟩
  · rcases List.mem_append.mp hc with hc' | hc4
    rcases List.mem_append.mp hc' with hc'' | hc3
    rcases List.mem_append.mp hc'' with hc1 | hc2
    · by_contra hne
      simp [nameChecks, hne] at hc1
    · simp [dobChecks_field hc2] at hf
    · simp [passportChecks_field hc3] at hf
    · simp [nationalityChecks_field hc4] at hf
  · exact ⟨mkFullNameCheck (sim (docNameOf d) a.fullName),
      by simp [buildCrossChecks, nameChecks, h], by simp [mkFullNameCheck]⟩
  · rcases List.mem_append.mp hc with hc' | hc4
    rcases List.mem_append.mp hc' with hc'' | hc3
    rcases List.mem_append.mp hc'' with hc1 | hc2
    · simp [nameChecks_field hc1] at hf
    · by_contra hne
      simp [dobChecks, hne] at hc2
    · simp [passportChecks_field hc3] at hf
    · simp [nationalityChecks_field hc4] at hf
  · exact ⟨mkDobCheck (optValue d.fields.birthDate) a.dateOfBirth
      (optConfidence d.fields.birthDate 60),
      by simp [buildCrossChecks, dobChecks, h.1, h.2], by simp [mkDobCheck]⟩
  · rcases List.mem_append.mp hc with hc' | hc4
    rcases List.mem_append.mp hc' with hc'' | hc3
    rcases List.mem_append.mp hc'' with hc1 | hc2
    · simp [nameChecks_field hc1] at hf
    · simp [dobChecks_field hc2] at hf
    · by_contra hne
      simp [passportChecks, hne] at hc3
    · simp [nationalityChecks_field hc4] at hf
  · exact ⟨mkPassportCheck (normalizePassport (optValue d.fields.documentNumber))
      (normalizePassport a.passportNumber) (optConfidence d.fields.documentNumber 60),
      by simp [buildCrossChecks, passportChecks, h.1, h.2], by simp [mkPassportCheck]⟩
  · rcases List.mem_append.mp hc with hc' | hc4
    rcases List.mem_append.mp hc' with hc'' | hc3
    rcases List.mem_append.mp hc'' with hc1 | hc2
    · simp [nameChecks_field hc1] at hf
    · simp [dobChecks_field hc2] at hf
    · simp [passportChecks_field hc3] at hf
    · by_contra hne
      simp [nationalityChecks, hne] at hc4
  · exact ⟨mkNationalityCheck (normalizeNationality (optValue d.fields.nationality))
      (normalizeNationality a.nationality) (optConfidence d.fields.nationality 60),
      by simp [buildCrossChecks, nationalityChecks, h.1, h.2], by simp [mkNationalityCheck]⟩

/-- C4 --- When all four cross-checks are emitted, they appear in the fixed
order fullName, dateOfBirth, passportNumber, nationality. -/
theorem cross_check_order (sim : String → String → ℚ) (a : ApplicantProfile)
    (d : DocumentExtraction)
    (h1 : docNameOf d ≠ "")
    (h2 : optValue d.fields.birthDate ≠ "") (h2a : a.dateOfBirth ≠ "")
    (h3 : optValue d.fields.documentNumber ≠ "") (h3a : a.passportNumber ≠ "")
    (h4 : optValue d.fields.nationality ≠ "") (h4a : a.nationality ≠ "") :
    (buildCrossChecks sim a d).map ApplicantCheck.field =
      [CheckField.fullName, CheckField.dateOfBirth, CheckField.passportNumber,
        CheckField.nationality] := by
  simp [buildCrossChecks, nameChecks, dobChecks, passportChecks, nationalityChecks,
    h1, h2, h2a, h3, h3a, h4, h4a, mkFullNameCheck, mkDobCheck, mkPassportCheck,
    mkNationalityCheck]

/-- C4 witness document: all four document-side values present. -/
def fullWitnessDoc : DocumentExtraction :=
  { fields :=
      { surname := some ⟨"DOE", 92⟩
        givenNames := some ⟨"JANE MARIE", 91⟩
        documentNumber := some ⟨"AB1234567", 95⟩
        nationality := some ⟨"USA", 93⟩
        birthDate := some ⟨"1990-01-05", 88⟩ }
    confidence := 90 }

/-- C4 witness form: all four applicant-side values declared. -/
def fullWitnessForm : ApplicantForm :=
  { surname := "DOE"
    givenNames := "JANE MARIE"
    dateOfBirth := "1990-01-05"
    nationality := "USA"
    passportNumber := "AB1234567" }

/-- C4 witness. -/
theorem cross_check_order_witness :
    (buildCrossChecks (fun _ _ => 1) (mkApplicant fullWitnessForm) fullWitnessDoc).map
        ApplicantCheck.field =
      [CheckField.fullName, CheckField.dateOfBirth, CheckField.passportNumber,
        CheckField.nationality] :=
  cross_check_order (fun _ _ => 1) (mkApplicant fullWitnessForm) fullWitnessDoc
    (by decide) (by decide) (by decide) (by decide) (by decide) (by decide) (by decide)

/-- C5 --- When both a document number and an applicant passport number are
present, the passport cross-check compares the two after stripping whitespace
and upper-casing, reporting `pass` exactly on normalized equality and
`warning` otherwise (never `fail`). -/
theorem passport_check_normalized_equality (sim : String → String → ℚ)
    (a : ApplicantProfile) (d : DocumentExtraction)
    (h1 : optValue d.fields.documentNumber ≠ "") (h2 : a.passportNumber ≠ "") :
    ∃ c ∈ buildCrossChecks sim a d, c.field = CheckField.passportNumber ∧
      (c.status = CheckStatus.pass ↔
        normalizePassport (optValue d.fields.documentNumber) =
          normalizePassport a.passportNumber) ∧
      (c.status = CheckStatus.warning ↔
        normalizePassport (optValue d.fields.documentNumber) ≠
          normalizePassport a.passportNumber) ∧
      c.status ≠ CheckStatus.fail := by
  have hp : passportChecks a d =
      [mkPassportCheck (normalizePassport (optValue d.fields.documentNumber))
        (normalizePassport a.passportNumber) (optConfidence d.fields.documentNumber 60)] := by
    simp [passportChecks, h1, h2]
  refine ⟨mkPassportCheck (normalizePassport (optValue d.fields.documentNumber))
    (normalizePassport a.passportNumber) (optConfidence d.fields.documentNumber 60), ?_, ?_⟩
  · simp [buildCrossChecks, hp]
  · by_cases heq : normalizePassport (optValue d.fields.documentNumber) =
        normalizePassport a.passportNumber <;>
      simp [mkPassportCheck, heq]

/-- C5 witness document: extracted number `"ab 1234567"` (scenario C). -/
def passportWitnessDoc : DocumentExtraction :=
  { fields := { documentNumber := some ⟨"ab 1234567", 95⟩ }, confidence := 90 }

/-- C5 witness form: declared number `"AB1234567"` (scenario C). -/
def passportWitnessForm : ApplicantForm :=
  { passportNumber := "AB1234567" }

/-- C5 witness: both normalize to `"AB1234567"` and the emitted check passes. -/
theorem passport_check_normalized_equality_witness :
    normalizePassport "ab 1234567" = "AB1234567" ∧
    ∃ c ∈ buildCrossChecks (fun _ _ => 1) (mkApplicant passportWitnessForm)
        passportWitnessDoc,
      c.field = CheckField.passportNumber ∧ c.status = CheckStatus.pass := by
  obtain ⟨c, hc, hf, hiff, -, -⟩ :=
    passport_check_normalized_equality (fun _ _ => 1) (mkApplicant passportWitnessForm)
      passportWitnessDoc (by decide) (by decide)
  exact ⟨by decide, c, hc, hf, hiff.mpr (by decide)⟩

/-- The rounded similarity percentage stays within `[0, 100]`. -/
theorem jsRound_percent_bounds (s : ℚ) (h0 : 0 ≤ s) (h1 : s ≤ 1) :
    0 ≤ jsRound (s * 100) ∧ jsRound (s * 100) ≤ 100 := by
  unfold jsRound
  constructor
  · exact Int.le_floor.mpr (by push_cast; linarith)
  · have h : (⌊s * 100 + 1/2⌋ : ℤ) < 101 := Int.floor_lt.mpr (by push_cast; linarith)
    omega

/-- C6 --- A fullName cross-check with similarity `s ∈ [0,1]` has status
`pass` exactly when `s > 0.75`, `warning` exactly when `0.4 < s ≤ 0.75`,
`fail` exactly when `s ≤ 0.4`; its confidence is `round(s*100)`, hence in
`[0,100]`, and its detail carries the similarity percentage. -/
theorem fullName_check_thresholds (sim : String → String → ℚ)
    (a : ApplicantProfile) (d : DocumentExtraction) (s : ℚ)
    (hd : docNameOf d ≠ "") (hs : sim (docNameOf d) a.fullName = s)
    (h0 : 0 ≤ s) (h1 : s ≤ 1) :
    ∃ c ∈ buildCrossChecks sim a d, c.field = CheckField.fullName ∧
      (c.status = CheckStatus.pass ↔ 3/4 < s) ∧
      (c.status = CheckStatus.warning ↔ (2/5 < s ∧ s ≤ 3/4)) ∧
      (c.status = CheckStatus.fail ↔ s ≤ 2/5) ∧
      c.confidence = (jsRound (s * 100) : ℚ) ∧
      0 ≤ c.confidence ∧ c.confidence ≤ 100 ∧
      c.detail = "Document vs applicant name similarity " ++ toFixed1 (s * 100) ++ "%." := by
  have hn : nameChecks sim a d = [mkFullNameCheck s] := by
    simp [nameChecks, hd, hs]
  obtain ⟨hlo, hhi⟩ := jsRound_percent_bounds s h0 h1
  have hconf : (mkFullNameCheck s).confidence = (jsRound (s * 100) : ℚ) := rfl
  refine ⟨mkFullNameCheck s, by simp [buildCrossChecks, hn], rfl, ?_, ?_, ?_, rfl,
    by rw [hconf]; exact_mod_cast hlo, by rw [hconf]; exact_mod_cast hhi, rfl⟩ <;>
    by_cases ha : 3/4 < s <;> by_cases hb : 2/5 < s <;>
    first
      | exact (hb (by linarith)).elim
      | (simp only [mkFullNameCheck]; simp [ha, hb] <;> linarith)

/-- C6 witness document: a document-derived name is present. -/
def nameWitnessDoc : DocumentExtraction :=
  { fields := { givenNames := some ⟨"JANE", 90⟩, surname := some ⟨"DOE", 90⟩ }
    confidence := 85 }

/-- C6 witness: a similarity of `1/2` lands in the warning band with
confidence 50. -/
theorem fullName_check_thresholds_witness :
    ∃ c ∈ buildCrossChecks (fun _ _ => 1/2) (mkApplicant fullWitnessForm) nameWitnessDoc,
      c.field = CheckField.fullName ∧
      (c.status = CheckStatus.pass ↔ 3/4 < (1/2 : ℚ)) ∧
      (c.status = CheckStatus.warning ↔ (2/5 < (1/2 : ℚ) ∧ (1/2 : ℚ) ≤ 3/4)) ∧
      (c.status = CheckStatus.fail ↔ (1/2 : ℚ) ≤ 2/5) ∧
      c.confidence = (jsRound ((1/2 : ℚ) * 100) : ℚ) ∧
      0 ≤ c.confidence ∧ c.confidence ≤ 100 ∧
      c.detail = "Document vs applicant name similarity " ++
        toFixed1 ((1/2 : ℚ) * 100) ++ "%." :=
  fullName_check_thresholds (fun _ _ => 1/2) (mkApplicant fullWitnessForm) nameWitnessDoc
    (1/2) (by decide) rfl (by norm_num) (by norm_num)

/-- Characterization of the best-document fold: the result dominates every
element's confidence, and it occurs in the list with every strictly earlier
element of strictly lower confidence (strict `>` keeps the accumulator on
ties, so the earliest maximum wins). -/
theorem foldl_pickBetter_spec (t : List DocumentExtraction) (a : DocumentExtraction) :
    (∀ x ∈ a :: t, x.confidence ≤ (t.foldl pickBetter a).confidence) ∧
    ∃ l₁ l₂, a :: t = l₁ ++ (t.foldl pickBetter a) :: l₂ ∧
      ∀ x ∈ l₁, x.confidence < (t.foldl pickBetter a).confidence := by
  induction t generalizing a with
  | nil =>
    refine ⟨?_, [], [], rfl, by simp⟩
    intro x hx
    simp only [List.foldl_nil]
    simp at hx
    simp [hx]
  | cons b t ih =>
    have hfold : (b :: t).foldl pickBetter a = t.foldl pickBetter (pickBetter a b) := rfl
    rw [hfold]
    by_cases hb : b.confidence > a.confidence
    · have hpick : pickBetter a b = b := if_pos hb
      rw [hpick]
      obtain ⟨hmax, l₁, l₂, hsplit, hlt⟩ := ih b
      have hbr : b.confidence ≤ (t.foldl pickBetter b).confidence :=
        hmax b (List.mem_cons_self _ _)
      constructor
      · intro x hx
        rcases List.mem_cons.mp hx with rfl | hx'
        · linarith
        · exact hmax x hx'
      · refine ⟨a :: l₁, l₂, ?_, ?_⟩
        · rw [List.cons_append, ← hsplit]
        · intro x hx
          rcases List.mem_cons.mp hx with rfl | hx'
          · linarith
          · exact hlt x hx'
    · have hpick : pickBetter a b = a := if_neg hb
      rw [hpick]
      push_neg at hb
      obtain ⟨hmax, l₁, l₂, hsplit, hlt⟩ := ih a
      have har : a.confidence ≤ (t.foldl pickBetter a).confidence :=
        hmax a (List.mem_cons_self _ _)
      constructor
      · intro x hx
        rcases List.mem_cons.mp hx with rfl | hx'
        · exact har
        rcases List.mem_cons.mp hx' with rfl | hx''
        · linarith
        · exact hmax x (List.mem_cons_of_mem _ hx'')
      · cases l₁ with
        | nil =>
          simp only [List.nil_append] at hsplit
          injection hsplit with h1 h2
          refine ⟨[], b :: t, ?_, by simp⟩
          simp only [List.nil_append]
          rw [← h1]
        | cons p l₁' =>
          rw [List.cons_append] at hsplit
          injection hsplit with h1 h2
          have hpa : p.confidence < (t.foldl pickBetter a).confidence :=
            hlt p (List.mem_cons_self _ _)
          have hap : a.confidence = p.confidence := by rw [h1]
          refine ⟨a :: b :: l₁', l₂, ?_, ?_⟩
          · simp only [List.cons_append]
            rw [← h2]
          · intro x hx
            rcases List.mem_cons.mp hx with rfl | hx'
            · exact hap.trans_lt hpa
            rcases List.mem_cons.mp hx' with rfl | hx''
            · calc x.confidence ≤ a.confidence := hb
                _ = p.confidence := hap
                _ < (t.foldl pickBetter a).confidence := hpa
            · exact hlt x (List.mem_cons_of_mem _ hx'')

/-- C9 --- For every non-empty extraction collection, the best-document
selection returns an element of the collection whose aggregate confidence no
other collected extraction strictly exceeds. -/
theorem best_doc_confidence_maximal (l : List DocumentExtraction) (h : l ≠ []) :
    ∃ e, reduceBest l = some e ∧ e ∈ l ∧ ∀ x ∈ l, x.confidence ≤ e.confidence := by
  cases l with
  | nil => exact absurd rfl h
  | cons d rest =>
    obtain ⟨hmax, l₁, l₂, hsplit, -⟩ := foldl_pickBetter_spec rest d
    exact ⟨rest.foldl pickBetter d, rfl,
      by rw [hsplit]; exact List.mem_append_right _ (List.mem_cons_self _ _), hmax⟩

/-- C9 witness data. -/
def maxWitnessLow : DocumentExtraction := { sourceId := "low", confidence := 70 }

/-- C9 witness data. -/
def maxWitnessHigh : DocumentExtraction := { sourceId := "high", confidence := 95 }

/-- C9 witness. -/
theorem best_doc_confidence_maximal_witness :
    ∃ e, reduceBest [maxWitnessLow, maxWitnessHigh] = some e ∧
      e ∈ [maxWitnessLow, maxWitnessHigh] ∧
      ∀ x ∈ [maxWitnessLow, maxWitnessHigh], x.confidence ≤ e.confidence :=
  best_doc_confidence_maximal [maxWitnessLow, maxWitnessHigh] (by simp)

/-- C10 --- The unseeded reduce is defined exactly on non-empty collections
(`none` models the `TypeError` on an empty array, which the zero-documents
guard makes unreachable), and on a non-empty collection it returns the
earliest extraction of maximal confidence: every element before the chosen
one has strictly lower confidence. -/
theorem best_doc_total_and_earliest_tie (l : List DocumentExtraction) :
    (reduceBest l = none ↔ l = []) ∧
    ∀ e, reduceBest l = some e →
      (∀ x ∈ l, x.confidence ≤ e.confidence) ∧
      ∃ l₁ l₂, l = l₁ ++ e :: l₂ ∧ ∀ x ∈ l₁, x.confidence < e.confidence := by
  cases l with
  | nil => exact ⟨by simp [reduceBest], fun e he => by simp [reduceBest] at he⟩
  | cons d rest =>
    refine ⟨by simp [reduceBest], fun e he => ?_⟩
    have he' : rest.foldl pickBetter d = e := by simpa [reduceBest] using he
    obtain ⟨hmax, l₁, l₂, hsplit, hlt⟩ := foldl_pickBetter_spec rest d
    rw [he'] at hmax hsplit hlt
    exact ⟨hmax, l₁, l₂, hsplit, hlt⟩

/-- C10 witness data: a lower-confidence head. -/
def tieWitnessLow : DocumentExtraction := { sourceId := "first-low", confidence := 80 }

/-- C10 witness data: the earliest maximal-confidence extraction. -/
def tieWitnessA : DocumentExtraction := { sourceId := "first-max", confidence := 90 }

/-- C10 witness data: a later extraction tying the maximum. -/
def tieWitnessB : DocumentExtraction := { sourceId := "second-max", confidence := 90 }

/-- C10 witness: on a tie the selection is the earliest maximum. -/
theorem best_doc_total_and_earliest_tie_witness :
    (∀ x ∈ [tieWitnessLow, tieWitnessA, tieWitnessB],
      x.confidence ≤ tieWitnessA.confidence) ∧
    ∃ l₁ l₂, [tieWitnessLow, tieWitnessA, tieWitnessB] = l₁ ++ tieWitnessA :: l₂ ∧
      ∀ x ∈ l₁, x.confidence < tieWitnessA.confidence :=
  (best_doc_total_and_earliest_tie [tieWitnessLow, tieWitnessA, tieWitnessB]).2
    tieWitnessA (by decide)

/-- C2 data: the extraction a document already holds before the run. -/
def priorExtraction : DocumentExtraction := { sourceId := "doc-1", confidence := 80 }

/-- C2 data: the extraction produced when the same document is OCR'd again. -/
def rerunExtraction : DocumentExtraction := { sourceId := "doc-1", confidence := 70 }

/-- C2 data: a document that is already in the `done` state when the run
starts. -/
def doneDocument : UploadedDocument :=
  { id := "doc-1", status := DocStatus.done, extraction := some priorExtraction }

/-- C2 data: the OCR step succeeds again on the same document. -/
def rerunOcr : UploadedDocument → Option DocumentExtraction :=
  fun _ => some rerunExtraction

/-- C2 --- The collection loop of `runAnalysis` seeds the run with the stored
extractions of already-`done` documents and then re-runs OCR over every
queued document, so one already-`done` document contributes two extractions
to the collection of a single run. -/
theorem done_document_double_collection :
    collectedExtractions rerunOcr [doneDocument] = [priorExtraction, rerunExtraction] ∧
    (collectedExtractions rerunOcr [doneDocument]).length = 2 := by decide

/-- C8 --- With at least one queued document but an empty extraction
collection, the run produces no report (the report state stays cleared) and
raises the `Analysis Incomplete` toast. -/
theorem zero_processed_no_report {Policy Elig Report : Type} (builtinDefault : Policy)
    (parsePolicyFn : String → Except String Policy)
    (evaluateEligibilityFn : ApplicantProfile → List DocumentExtraction → Policy → Elig)
    (buildReportFn : List DocumentExtraction → Elig → ApplicantProfile →
      List ApplicantCheck → Report)
    (sim : String → String → ℚ)
    (ocr : UploadedDocument → Option DocumentExtraction)
    (prevReport : Option Report) (docs : List UploadedDocument)
    (policyText : String) (form : ApplicantForm)
    (hd : docs ≠ []) (hc : collectedExtractions ocr docs = []) :
    (runAnalysis builtinDefault parsePolicyFn evaluateEligibilityFn buildReportFn sim ocr
        prevReport docs policyText form).report = none ∧
    (runAnalysis builtinDefault parsePolicyFn evaluateEligibilityFn buildReportFn sim ocr
        prevReport docs policyText form).toasts = [analysisIncompleteToast] := by
  have hlen : ¬ docs.length = 0 := by simpa [List.length_eq_zero] using hd
  unfold runAnalysis
  rw [if_neg hlen, hc]
  exact ⟨rfl, rfl⟩

/-- C8 witness data: a pending document whose OCR attempt fails. -/
def pendingDocument : UploadedDocument := { id := "doc-2" }

/-- C8 witness. -/
theorem zero_processed_no_report_witness :
    (runAnalysis () (fun _ => Except.ok ()) (fun _ _ _ => ()) (fun _ _ _ _ => ())
        (fun _ _ => 0) (fun _ => none) none [pendingDocument] "" {}).report = none ∧
    (runAnalysis () (fun _ => Except.ok ()) (fun _ _ _ => ()) (fun _ _ _ _ => ())
        (fun _ _ => 0) (fun _ => none) none [pendingDocument] "" {}).toasts =
      [analysisIncompleteToast] :=
  zero_processed_no_report () (fun _ => Except.ok ()) (fun _ _ _ => ())
    (fun _ _ _ _ => ()) (fun _ _ => 0) (fun _ => none) none [pendingDocument] "" {}
    (by simp) (by decide)

/-- C7 --- When policy parsing fails, the run neither aborts nor propagates
the error: the report is still produced, eligibility is evaluated against the
built-in default policy, and the `Policy Error` toast signals the
substitution to the caller. -/
theorem policy_parse_failure_fallback {Policy Elig Report : Type}
    (builtinDefault : Policy)
    (parsePolicyFn : String → Except String Policy)
    (evaluateEligibilityFn : ApplicantProfile → List DocumentExtraction → Policy → Elig)
    (buildReportFn : List DocumentExtraction → Elig → ApplicantProfile →
      List ApplicantCheck → Report)
    (sim : String → String → ℚ)
    (ocr : UploadedDocument → Option DocumentExtraction)
    (prevReport : Option Report) (docs : List UploadedDocument)
    (policyText : String) (form : ApplicantForm) (msg : String)
    (d : DocumentExtraction) (rest : List DocumentExtraction)
    (hp : parsePolicyFn policyText = Except.error msg)
    (hd : docs ≠ []) (hc : collectedExtractions ocr docs = d :: rest) :
    (runAnalysis builtinDefault parsePolicyFn evaluateEligibilityFn buildReportFn sim ocr
        prevReport docs policyText form).report =
      some (buildReportFn (d :: rest)
        (evaluateEligibilityFn (mkApplicant form) (d :: rest) builtinDefault)
        (mkApplicant form)
        (buildCrossChecks sim (mkApplicant form) (rest.foldl pickBetter d))) ∧
    policyErrorToast ∈
      (runAnalysis builtinDefault parsePolicyFn evaluateEligibilityFn buildReportFn sim ocr
        prevReport docs policyText form).toasts := by
  have hlen : ¬ docs.length = 0 := by simpa [List.length_eq_zero] using hd
  unfold runAnalysis
  rw [if_neg hlen, hc]
  simp [runAnalysisCore, resolvePolicy, hp]

/-- C7 witness data: any OCR success so the collection is non-empty. -/
def fallbackWitnessOcr : UploadedDocument → Option DocumentExtraction :=
  fun _ => some priorExtraction

/-- C7 witness: with an always-failing parser the run still reports, the
eligibility evaluator (instantiated to return its policy argument) receives
the built-in default (`true`), and the substitution toast is raised. -/
theorem policy_parse_failure_fallback_witness :
    (runAnalysis true (fun _ => Except.error "bad json") (fun _ _ p => p)
        (fun _ e _ _ => e) (fun _ _ => 0) fallbackWitnessOcr none [pendingDocument]
        "not json" {}).report = some true ∧
    policyErrorToast ∈
      (runAnalysis true (fun _ => Except.error "bad json") (fun _ _ p => p)
        (fun _ e _ _ => e) (fun _ _ => 0) fallbackWitnessOcr none [pendingDocument]
        "not json" {}).toasts :=
  policy_parse_failure_fallback true (fun _ => Except.error "bad json")
    (fun _ _ p => p) (fun _ e _ _ => e) (fun _ _ => 0) fallbackWitnessOcr none
    [pendingDocument] "not json" {} "bad json" priorExtraction [] rfl (by simp)
    (by decide)

end AtlasVerify
